import Mathlib

/-
Verification of the Paper-System backend (Express + Mongoose), shallow
embedding of the authorization and attachment-lifecycle logic.

The repository contains two near-duplicate server variants in one source
file:
  * the "cloudinary" variant (remote blob store), first half of the file;
  * the "local-disk" variant (multer diskStorage), second half.
They are embedded below as namespaces `Cloud` and `LocalDisk`.  The
credential service and the authorization guard are textually identical in
the two variants and are embedded once, in the shared namespace.

Conventions of the embedding:
  * the Mongo document store is a `List Paper` (resp. `List User`), passed
    and returned explicitly; `findById` is `List.find?` on the `_id` field;
  * `Date.now()` is an explicit `now : Nat` argument;
  * `bcrypt.compare` and `cloudinary.uploader.destroy` are oracle
    parameters (`compare : String → String → Bool`,
    `destroyOk : String → Bool`, true = the destroy call succeeds);
  * a handler returns `HResult α × Store`: `ok` for a 2xx body, `err s m`
    for `res.status(s).send(m)`, and `escaped m` for a promise rejection
    that no try/catch in the handler intercepts (the request gets no
    response from the handler's own code);
  * JS truthiness of a possibly-absent field is modelled with `Option`
    (`none` = the field is absent / `undefined`).
-/

namespace PaperSystem

/-- Outcome of one request handler: a success body, an explicit
`res.status(s).send(m)`, or a promise rejection that escapes the handler
(no surrounding try/catch). -/
inductive HResult (α : Type) where
  | ok : α → HResult α
  | err : Nat → String → HResult α
  | escaped : String → HResult α
deriving Repr, DecidableEq

/-- True exactly when the result is `res.status(400).send _`. -/
def HResult.isErr400 : HResult α → Bool
  | .err 400 _ => true
  | _ => false

/-- Decoded JWT payload (`req.user`).  The admin token is signed as
`{_id: 'admin', isAdmin: true}`, a moderator token as
`{_id, username}`; absent fields are `none`. -/
structure Claims where
  _id : String
  username : Option String
  isAdmin : Option Bool
deriving Repr, DecidableEq

/-- JS truthiness of a possibly-absent boolean field
(`undefined` and `false` are falsy). -/
def truthy : Option Bool → Bool
  | none => false
  | some b => b

/-- JS truthiness of a possibly-absent string field
(`undefined` and `''` are falsy). -/
def truthyStr (o : Option String) : Bool :=
  o.getD "" ≠ ""

/-- A moderator account in the User collection; `password` holds the
bcrypt hash. -/
structure User where
  _id : String
  username : String
  password : String
deriving Repr, DecidableEq

/-- POST /api/admin/login (identical in both variants).  Succeeds only on
the literal username 'admin' with the configured admin password, and then
signs `{_id: 'admin', isAdmin: true}`. -/
def adminLogin (username password adminPassword : String) : HResult Claims :=
  if username ≠ "admin" || password ≠ adminPassword then
    .err 400 "Invalid credentials"
  else
    .ok { _id := "admin", username := none, isAdmin := some true }

/-- POST /api/moderators/login (identical in both variants).  Looks the
moderator up by username, checks the password with `bcrypt.compare`
(the `compare` oracle), and signs `{_id, username}` — no isAdmin field. -/
def moderatorLogin (users : List User) (username password : String)
    (compare : String → String → Bool) : HResult Claims :=
  match users.find? (fun m => m.username == username) with
  | none => .err 400 "Invalid username or password."
  | some moderator =>
    if !(compare password moderator.password) then
      .err 400 "Invalid username or password."
    else
      .ok { _id := moderator._id, username := some moderator.username,
            isAdmin := none }

/-- POST /api/moderators (identical in both variants): admin-gated
creation of a moderator account.  `hash` stands for bcrypt salt+hash. -/
def createModerator (user : Claims) (username password : String)
    (users : List User) (hash : String → String) (newId : String) :
    HResult String × List User :=
  if !truthy user.isAdmin then (.err 403 "Access denied.", users)
  else
    match users.find? (fun m => m.username == username) with
    | some _ => (.err 400 "Moderator already registered.", users)
    | none =>
      let u : User := { _id := newId, username := username,
                        password := hash password }
      (.ok username, users ++ [u])

/-- paperSchema: `title` is required with maxlength 100. -/
def validTitle (t : String) : Bool :=
  t.length > 0 && t.length ≤ 100

/-- paperSchema: `note` is required with maxlength 500. -/
def validNote (n : String) : Bool :=
  n.length > 0 && n.length ≤ 500

namespace Cloud

/-- Embedded file subdocument of the cloudinary-variant `fileSchema`
(url, public_id, originalName all required); `fid` is the subdocument
`_id` Mongoose assigns. -/
structure CFile where
  fid : String
  url : String
  public_id : String
  originalName : String
deriving Repr, DecidableEq

/-- One entry of `req.files` as produced by multer with CloudinaryStorage:
`path` is the hosted URL, `filename` the Cloudinary public id,
`originalname` the client-side file name.  `genId` stands for the
subdocument `_id` Mongoose generates when the entry is stored. -/
structure UploadedFile where
  path : String
  filename : String
  originalname : String
  genId : String
deriving Repr, DecidableEq

/-- The mapping applied to each `req.files` entry in the POST and PUT
paper handlers: `{url: file.path, public_id: file.filename,
originalName: file.originalname}`. -/
def toFile (f : UploadedFile) : CFile :=
  { fid := f.genId, url := f.path, public_id := f.filename,
    originalName := f.originalname }

/-- A document of the Paper collection (cloudinary-variant schema). -/
structure Paper where
  _id : String
  moderatorId : String
  title : String
  note : String
  files : List CFile
  createdAt : Nat
  updatedAt : Nat
deriving Repr, DecidableEq

/-- Validation run by `paper.save()`: moderatorId, title, note are
required, title ≤ 100 chars, note ≤ 500 chars (paperSchema). -/
def validPaper (p : Paper) : Bool :=
  p.moderatorId ≠ "" && validTitle p.title && validNote p.note

/-- Body of POST /api/papers; `none` models an absent field. -/
structure CreateBody where
  moderatorId : Option String
  title : Option String
  note : Option String
deriving Repr, DecidableEq

/-- POST /api/papers (cloudinary variant): admin-gated; maps `req.files`,
builds the Paper (createdAt/updatedAt default to now) and saves it.  The
handler has no try/catch, so a validation rejection from `save()`
escapes.  No lookup against the User collection is performed. -/
def createPaper (user : Claims) (body : CreateBody)
    (uploads : List UploadedFile) (store : List Paper)
    (newId : String) (now : Nat) : HResult Paper × List Paper :=
  if !truthy user.isAdmin then (.err 403 "Access denied.", store)
  else
    let files := uploads.map toFile
    let paper : Paper :=
      { _id := newId, moderatorId := body.moderatorId.getD "",
        title := body.title.getD "", note := body.note.getD "",
        files := files, createdAt := now, updatedAt := now }
    if validPaper paper then (.ok paper, store ++ [paper])
    else (.escaped "ValidationError", store)

/-- PUT /api/papers/:id (cloudinary variant): admin-gated; 404 when the
paper is absent; sets the note only when `req.body.note` is truthy;
appends mapped uploads when `req.files.length > 0`; refreshes updatedAt;
saves.  No try/catch, so a validation rejection escapes. -/
def updatePaper (user : Claims) (pid : String) (note? : Option String)
    (uploads : List UploadedFile) (store : List Paper) (now : Nat) :
    HResult Paper × List Paper :=
  if !truthy user.isAdmin then (.err 403 "Access denied.", store)
  else
    match store.find? (fun p => p._id == pid) with
    | none => (.err 404 "Paper not found.", store)
    | some paper =>
      let paper1 :=
        if truthyStr note? then { paper with note := note?.getD "" }
        else paper
      let paper2 :=
        if uploads.length > 0 then
          { paper1 with files := paper1.files ++ uploads.map toFile }
        else paper1
      let paper3 := { paper2 with updatedAt := now }
      if validPaper paper3 then
        (.ok paper3, store.map (fun q => if q._id == pid then paper3 else q))
      else (.escaped "ValidationError", store)

/-- Removal of the first subdocument whose `_id` matches
(`paper.files.id(fileId)` followed by `file.remove()`). -/
def removeFile (fs : List CFile) (fileId : String) : List CFile :=
  match fs with
  | [] => []
  | f :: rest =>
    if f.fid == fileId then rest else f :: removeFile rest fileId

/-- DELETE /api/papers/:paperId/files/:fileId (cloudinary variant).
There is NO admin check: any authenticated caller reaches the body.  The
whole body is wrapped in try/catch → 500.  404 when paper or file is
absent; otherwise the Cloudinary destroy runs first (its failure is
caught as 500 before any metadata change), then the subdocument is
removed and the paper saved.  updatedAt is not touched. -/
def deleteFile (_user : Claims) (paperId fileId : String)
    (destroyOk : String → Bool) (store : List Paper) :
    HResult String × List Paper :=
  match store.find? (fun p => p._id == paperId) with
  | none => (.err 404 "Paper not found.", store)
  | some paper =>
    match paper.files.find? (fun f => f.fid == fileId) with
    | none => (.err 404 "File not found.", store)
    | some file =>
      if !destroyOk file.public_id then
        (.err 500 "Error deleting file", store)
      else
        let paper' := { paper with files := removeFile paper.files fileId }
        (.ok "File deleted successfully",
         store.map (fun q => if q._id == paperId then paper' else q))

/-- GET /api/papers/moderator/:moderatorId (cloudinary variant): allowed
for admin or the moderator whose `_id` equals the path parameter;
otherwise 403.  Returns the papers filtered by moderatorId. -/
def getPapersForModerator (user : Claims) (moderatorId : String)
    (store : List Paper) : HResult (List Paper) :=
  if !truthy user.isAdmin && user._id ≠ moderatorId then
    .err 403 "Access denied."
  else
    .ok (store.filter (fun p => p.moderatorId == moderatorId))

/-- DELETE /api/papers/:id (cloudinary variant): admin-gated;
`findByIdAndDelete` removes the record first (404 when absent), and only
then the loop of Cloudinary destroys runs, with no try/catch: a destroy
failure escapes, but the record is already gone from the store. -/
def deletePaper (user : Claims) (pid : String)
    (destroyOk : String → Bool) (store : List Paper) :
    HResult String × List Paper :=
  if !truthy user.isAdmin then (.err 403 "Access denied.", store)
  else
    match store.find? (fun p => p._id == pid) with
    | none => (.err 404 "Paper not found.", store)
    | some paper =>
      let store' := store.filter (fun p => !(p._id == pid))
      if paper.files.all (fun f => destroyOk f.public_id) then
        (.ok "Paper deleted successfully", store')
      else (.escaped "cloudinary destroy rejected", store')

end Cloud

namespace LocalDisk

/-- Embedded file subdocument of the local-disk-variant `fileSchema`
(path and originalName required, createdAt defaults to now); `fid` is the
subdocument `_id` Mongoose assigns. -/
structure LFile where
  fid : String
  path : String
  originalName : String
  createdAt : Nat
deriving Repr, DecidableEq

/-- One entry of `req.files` as produced by multer diskStorage: `path` is
the location under uploads/, `originalname` the client-side file name.
`genId` stands for the subdocument `_id` Mongoose generates when the
entry is stored. -/
structure UploadedFile where
  path : String
  originalname : String
  genId : String
deriving Repr, DecidableEq

/-- The mapping applied to each `req.files` entry in the POST and PUT
paper handlers: `{path: file.path, originalName: file.originalname}`;
the subdocument createdAt defaults to now. -/
def toFile (now : Nat) (f : UploadedFile) : LFile :=
  { fid := f.genId, path := f.path, originalName := f.originalname,
    createdAt := now }

/-- A document of the Paper collection (local-disk-variant schema). -/
structure Paper where
  _id : String
  moderatorId : String
  title : String
  note : String
  files : List LFile
  createdAt : Nat
  updatedAt : Nat
deriving Repr, DecidableEq

/-- Validation run by `paper.save()`: moderatorId, title, note are
required, title ≤ 100 chars, note ≤ 500 chars (paperSchema). -/
def validPaper (p : Paper) : Bool :=
  p.moderatorId ≠ "" && validTitle p.title && validNote p.note

/-- POST /api/papers (local-disk variant): admin-gated; maps `req.files`,
builds the Paper and saves it.  The handler has no try/catch, so a
validation rejection from `save()` escapes.  No lookup against the User
collection is performed. -/
def createPaper (user : Claims) (body : Cloud.CreateBody)
    (uploads : List UploadedFile) (store : List Paper)
    (newId : String) (now : Nat) : HResult Paper × List Paper :=
  if !truthy user.isAdmin then (.err 403 "Access denied.", store)
  else
    let files := uploads.map (toFile now)
    let paper : Paper :=
      { _id := newId, moderatorId := body.moderatorId.getD "",
        title := body.title.getD "", note := body.note.getD "",
        files := files, createdAt := now, updatedAt := now }
    if validPaper paper then (.ok paper, store ++ [paper])
    else (.escaped "ValidationError", store)

/-- PUT /api/papers/:id (local-disk variant): admin-gated; the body is
wrapped in try/catch → 500 'Error updating paper'.  404 when the paper is
absent; sets the note only when `req.body.note` is truthy; appends mapped
uploads when files were sent; refreshes updatedAt; saves (a validation
rejection is caught as 500). -/
def updatePaper (user : Claims) (pid : String) (note? : Option String)
    (uploads : List UploadedFile) (store : List Paper) (now : Nat) :
    HResult Paper × List Paper :=
  if !truthy user.isAdmin then (.err 403 "Access denied.", store)
  else
    match store.find? (fun p => p._id == pid) with
    | none => (.err 404 "Paper not found.", store)
    | some paper =>
      let paper1 :=
        if truthyStr note? then { paper with note := note?.getD "" }
        else paper
      let paper2 :=
        if uploads.length > 0 then
          { paper1 with files := paper1.files ++ uploads.map (toFile now) }
        else paper1
      let paper3 := { paper2 with updatedAt := now }
      if validPaper paper3 then
        (.ok paper3, store.map (fun q => if q._id == pid then paper3 else q))
      else (.err 500 "Error updating paper", store)

/-- `paper.files.splice(fileIndex, 1)` at the index returned by
`findIndex`: removal of the first subdocument whose `_id` matches. -/
def removeFile (fs : List LFile) (fileId : String) : List LFile :=
  match fs with
  | [] => []
  | f :: rest =>
    if f.fid == fileId then rest else f :: removeFile rest fileId

/-- DELETE /api/papers/:paperId/files/:fileId (local-disk variant):
admin-gated (unlike the cloudinary variant).  404 when paper or file is
absent; otherwise the entry is spliced out and the paper saved.  The
filesystem unlink is commented out in the source, so no blob interaction
occurs.  updatedAt is not touched. -/
def deleteFile (user : Claims) (paperId fileId : String)
    (store : List Paper) : HResult String × List Paper :=
  if !truthy user.isAdmin then (.err 403 "Access denied.", store)
  else
    match store.find? (fun p => p._id == paperId) with
    | none => (.err 404 "Paper not found.", store)
    | some paper =>
      if paper.files.all (fun f => !(f.fid == fileId)) then
        (.err 404 "File not found.", store)
      else
        let paper' := { paper with files := removeFile paper.files fileId }
        (.ok "File deleted successfully",
         store.map (fun q => if q._id == paperId then paper' else q))

/-- GET /api/papers/moderator/:moderatorId (local-disk variant):
line-for-line identical guard to the cloudinary variant — admin or the
moderator whose `_id` equals the path parameter, otherwise 403. -/
def getPapersForModerator (user : Claims) (moderatorId : String)
    (store : List Paper) : HResult (List Paper) :=
  if !truthy user.isAdmin && user._id ≠ moderatorId then
    .err 403 "Access denied."
  else
    .ok (store.filter (fun p => p.moderatorId == moderatorId))

/-- DELETE /api/papers/:id (local-disk variant): admin-gated;
`findByIdAndDelete` removes the record (404 when absent); the filesystem
unlink is commented out in the source, so no blob deletion is attempted
and nothing can fail after the record removal. -/
def deletePaper (user : Claims) (pid : String) (store : List Paper) :
    HResult String × List Paper :=
  if !truthy user.isAdmin then (.err 403 "Access denied.", store)
  else
    match store.find? (fun p => p._id == pid) with
    | none => (.err 404 "Paper not found.", store)
    | some _ =>
      (.ok "Paper deleted successfully",
       store.filter (fun p => !(p._id == pid)))

end LocalDisk

/-! Concrete fixtures used by witnesses and counterexamples. -/

/-- Claims as issued by POST /api/admin/login. -/
def exAdmin : Claims := { _id := "admin", username := none, isAdmin := some true }

/-- Claims as issued by POST /api/moderators/login for moderator bob. -/
def exMod : Claims := { _id := "bob", username := some "bob", isAdmin := none }

/-- A stored cloudinary attachment. -/
def exF1 : Cloud.CFile :=
  { fid := "f1", url := "u1", public_id := "pub1", originalName := "a.pdf" }

/-- A second stored cloudinary attachment. -/
def exF2 : Cloud.CFile :=
  { fid := "f2", url := "u2", public_id := "pub2", originalName := "b.pdf" }

/-- A stored paper (cloudinary variant) with two attachments. -/
def exPaper : Cloud.Paper :=
  { _id := "p1", moderatorId := "m1", title := "T", note := "N",
    files := [exF1, exF2], createdAt := 3, updatedAt := 5 }

/-- A stored local-disk attachment. -/
def exLF1 : LocalDisk.LFile :=
  { fid := "f1", path := "uploads/1-a.pdf", originalName := "a.pdf",
    createdAt := 3 }

/-- A stored paper (local-disk variant) with one attachment. -/
def exLPaper : LocalDisk.Paper :=
  { _id := "p1", moderatorId := "m1", title := "T", note := "N",
    files := [exLF1], createdAt := 3, updatedAt := 5 }

/-- A title of 101 characters, one over the schema's maxlength. -/
def longTitle : String := String.mk (List.replicate 101 'a')

/-- A freshly uploaded cloudinary file used in update requests. -/
def exUp3 : Cloud.UploadedFile :=
  { path := "u3", filename := "pub3", originalname := "c.pdf", genId := "f3" }

/-- The paper produced by a create request with moderatorId m1, title T,
note N and no files, at clock 7 with generated id p9. -/
def exNewPaper : Cloud.Paper :=
  { _id := "p9", moderatorId := "m1", title := "T", note := "N",
    files := [], createdAt := 7, updatedAt := 7 }

/-- exPaper after a successful PUT at clock 9 appending exUp3. -/
def exUpdated : Cloud.Paper :=
  { exPaper with files := [exF1, exF2, Cloud.toFile exUp3], updatedAt := 9 }

/-! # Helper lemmas -/

/-- Characterization of a successful PUT /api/papers/:id in the
cloudinary variant: the saved paper keeps moderatorId, title, createdAt;
sets updatedAt to the clock; appends the mapped uploads; and changes the
note exactly when `req.body.note` is truthy. -/
theorem cloudUpdate_ok (user : Claims) (pid : String) (note? : Option String)
    (ups : List Cloud.UploadedFile) (store : List Cloud.Paper) (now : Nat)
    (paper p' : Cloud.Paper) (store' : List Cloud.Paper)
    (hfind : store.find? (fun p => p._id == pid) = some paper)
    (h : Cloud.updatePaper user pid note? ups store now = (.ok p', store')) :
    p'.moderatorId = paper.moderatorId ∧ p'.title = paper.title
    ∧ p'.createdAt = paper.createdAt ∧ p'.updatedAt = now
    ∧ p'.files = paper.files ++ ups.map Cloud.toFile
    ∧ p'.note = (if truthyStr note? then note?.getD "" else paper.note)
    ∧ store' = store.map (fun q => if q._id == pid then p' else q) := by
  rcases Bool.eq_false_or_eq_true (truthyStr note?) with hn | hn <;>
    rcases ups with _ | ⟨u, us⟩
  all_goals
    simp [Cloud.updatePaper, hfind, hn] at h
    split at h
    · simp at h
    · split at h
      · simp only [Prod.mk.injEq, HResult.ok.injEq] at h
        obtain ⟨h1, h2⟩ := h
        subst h2
        rw [← h1]
        simp [hn]
      · simp at h

/-- Characterization of a successful PUT /api/papers/:id in the
local-disk variant, mirroring `cloudUpdate_ok`. -/
theorem localUpdate_ok (user : Claims) (pid : String) (note? : Option String)
    (ups : List LocalDisk.UploadedFile) (store : List LocalDisk.Paper)
    (now : Nat) (paper p' : LocalDisk.Paper) (store' : List LocalDisk.Paper)
    (hfind : store.find? (fun p => p._id == pid) = some paper)
    (h : LocalDisk.updatePaper user pid note? ups store now
          = (.ok p', store')) :
    p'.moderatorId = paper.moderatorId ∧ p'.title = paper.title
    ∧ p'.createdAt = paper.createdAt ∧ p'.updatedAt = now
    ∧ p'.files = paper.files ++ ups.map (LocalDisk.toFile now)
    ∧ p'.note = (if truthyStr note? then note?.getD "" else paper.note)
    ∧ store' = store.map (fun q => if q._id == pid then p' else q) := by
  rcases Bool.eq_false_or_eq_true (truthyStr note?) with hn | hn <;>
    rcases ups with _ | ⟨u, us⟩
  all_goals
    simp [LocalDisk.updatePaper, hfind, hn] at h
    split at h
    · simp at h
    · split at h
      · simp only [Prod.mk.injEq, HResult.ok.injEq] at h
        obtain ⟨h1, h2⟩ := h
        subst h2
        rw [← h1]
        simp [hn]
      · simp at h

/-- Characterization of a successful attachment deletion in the
cloudinary variant: the saved paper is the found paper with only its
files list changed (updatedAt, note, title, moderatorId, createdAt all
kept). -/
theorem cloudDeleteFile_ok (user : Claims) (pid fid : String)
    (destroyOk : String → Bool) (store : List Cloud.Paper)
    (paper : Cloud.Paper) (file : Cloud.CFile)
    (hfind : store.find? (fun p => p._id == pid) = some paper)
    (hfile : paper.files.find? (fun f => f.fid == fid) = some file)
    (hdest : destroyOk file.public_id = true) :
    Cloud.deleteFile user pid fid destroyOk store
      = (.ok "File deleted successfully",
         store.map (fun q =>
           if q._id == pid then
             { paper with files := Cloud.removeFile paper.files fid }
           else q)) := by
  simp [Cloud.deleteFile, hfind, hfile, hdest]

/-- Characterization of a successful attachment deletion in the
local-disk variant, mirroring `cloudDeleteFile_ok`. -/
theorem localDeleteFile_ok (user : Claims) (pid fid : String)
    (store : List LocalDisk.Paper) (paper : LocalDisk.Paper)
    (hadm : truthy user.isAdmin = true)
    (hfind : store.find? (fun p => p._id == pid) = some paper)
    (hfile : paper.files.all (fun f => !(f.fid == fid)) = false) :
    LocalDisk.deleteFile user pid fid store
      = (.ok "File deleted successfully",
         store.map (fun q =>
           if q._id == pid then
             { paper with files := LocalDisk.removeFile paper.files fid }
           else q)) := by
  simp [LocalDisk.deleteFile, hadm, hfind, hfile]

/-! # Claim theorems -/

/-- C4: removing an attachment by an id that does not occur in the paper's
attachment sequence fails with 404 "File not found." and leaves the store
(hence the paper's attachment sequence) exactly unchanged, in both the
cloudinary and the local-disk variant (the latter behind its admin
guard). -/
theorem C4_remove_missing_attachment_notfound :
    (∀ (user : Claims) (pid fid : String) (destroyOk : String → Bool)
       (store : List Cloud.Paper) (paper : Cloud.Paper),
       store.find? (fun p => p._id == pid) = some paper →
       paper.files.find? (fun f => f.fid == fid) = none →
       Cloud.deleteFile user pid fid destroyOk store
         = (.err 404 "File not found.", store))
    ∧ (∀ (user : Claims) (pid fid : String)
         (store : List LocalDisk.Paper) (paper : LocalDisk.Paper),
       truthy user.isAdmin = true →
       store.find? (fun p => p._id == pid) = some paper →
       paper.files.all (fun f => !(f.fid == fid)) = true →
       LocalDisk.deleteFile user pid fid store
         = (.err 404 "File not found.", store)) := by
  constructor
  · intro user pid fid destroyOk store paper hfind hfile
    simp [Cloud.deleteFile, hfind, hfile]
  · intro user pid fid store paper hadm hfind hfile
    simp [LocalDisk.deleteFile, hadm, hfind, hfile]

/-- Witness for C4 at concrete inputs: deleting file id "zzz" (absent from
exPaper) returns 404 and the store is untouched. -/
theorem C4_witness :
    Cloud.deleteFile exMod "p1" "zzz" (fun _ => true) [exPaper]
      = (.err 404 "File not found.", [exPaper]) :=
  C4_remove_missing_attachment_notfound.1 exMod "p1" "zzz" (fun _ => true)
    [exPaper] exPaper (by decide) (by decide)

/-- C6: on GET /api/papers/moderator/:moderatorId an admin caller always
succeeds and receives the papers filtered by that moderatorId, while a
caller without a truthy isAdmin whose own id differs from the requested
moderatorId receives 403, in both variants. -/
theorem C6_moderator_papers_guard :
    (∀ (user : Claims) (mid : String) (store : List Cloud.Paper),
       truthy user.isAdmin = true →
       Cloud.getPapersForModerator user mid store
         = .ok (store.filter (fun p => p.moderatorId == mid)))
    ∧ (∀ (user : Claims) (mid : String) (store : List Cloud.Paper),
       truthy user.isAdmin = false → user._id ≠ mid →
       Cloud.getPapersForModerator user mid store = .err 403 "Access denied.")
    ∧ (∀ (user : Claims) (mid : String) (store : List LocalDisk.Paper),
       truthy user.isAdmin = true →
       LocalDisk.getPapersForModerator user mid store
         = .ok (store.filter (fun p => p.moderatorId == mid)))
    ∧ (∀ (user : Claims) (mid : String) (store : List LocalDisk.Paper),
       truthy user.isAdmin = false → user._id ≠ mid →
       LocalDisk.getPapersForModerator user mid store
         = .err 403 "Access denied.") := by
  refine ⟨?_, ?_, ?_, ?_⟩
  · intro user mid store h
    simp [Cloud.getPapersForModerator, h]
  · intro user mid store h hne
    simp [Cloud.getPapersForModerator, h, hne]
  · intro user mid store h
    simp [LocalDisk.getPapersForModerator, h]
  · intro user mid store h hne
    simp [LocalDisk.getPapersForModerator, h, hne]

/-- Witness for C6: moderator bob asking for alice's papers is refused
with 403; the admin asking for m1's papers receives them. -/
theorem C6_witness :
    Cloud.getPapersForModerator exMod "alice" [exPaper]
        = .err 403 "Access denied."
    ∧ Cloud.getPapersForModerator exAdmin "m1" [exPaper] = .ok [exPaper] :=
  ⟨C6_moderator_papers_guard.2.1 exMod "alice" [exPaper] (by decide)
     (by decide),
   C6_moderator_papers_guard.1 exAdmin "m1" [exPaper] (by decide)⟩

/-- C5: in the paper cascade delete, the record's removal from the
document store takes effect regardless of blob-store failures: in the
cloudinary variant the record is deleted before the destroy loop runs, so
the resulting store never depends on the destroy oracle; in the
local-disk variant no blob deletion is attempted at all. -/
theorem C5_cascade_delete_record_removed :
    (∀ (user : Claims) (pid : String) (destroyOk : String → Bool)
       (store : List Cloud.Paper) (paper : Cloud.Paper),
       truthy user.isAdmin = true →
       store.find? (fun p => p._id == pid) = some paper →
       (Cloud.deletePaper user pid destroyOk store).2
         = store.filter (fun p => !(p._id == pid)))
    ∧ (∀ (user : Claims) (pid : String) (store : List LocalDisk.Paper)
         (paper : LocalDisk.Paper),
       truthy user.isAdmin = true →
       store.find? (fun p => p._id == pid) = some paper →
       LocalDisk.deletePaper user pid store
         = (.ok "Paper deleted successfully",
            store.filter (fun p => !(p._id == pid)))) := by
  constructor
  · intro user pid destroyOk store paper hadm hfind
    simp only [Cloud.deletePaper, hadm, hfind, Bool.not_true,
      Bool.false_eq_true, if_false]
    split <;> rfl
  · intro user pid store paper hadm hfind
    simp [LocalDisk.deletePaper, hadm, hfind]

/-- Witness for C5: the admin cascade delete of exPaper with a destroy
oracle that always fails still leaves the store without the paper. -/
theorem C5_witness :
    (Cloud.deletePaper exAdmin "p1" (fun _ => false) [exPaper]).2 = [] :=
  C5_cascade_delete_record_removed.1 exAdmin "p1" (fun _ => false)
    [exPaper] exPaper (by decide) (by decide)

/-- C1 counterexample: in the cloudinary variant, moderator bob (claims
without isAdmin) DELETEs file f1 of exPaper and the request SUCCEEDS,
removing the attachment — not the 403 Forbidden with unchanged sequence
that the claim requires of both variants. -/
theorem C1_counterexample :
    truthy exMod.isAdmin = false
    ∧ Cloud.deleteFile exMod "p1" "f1" (fun _ => true) [exPaper]
        = (.ok "File deleted successfully",
           [{ exPaper with files := [exF2] }]) := by
  constructor
  · decide
  · decide

/-- C1 amended: only the local-disk variant admin-gates attachment
deletion (a caller without truthy isAdmin gets 403 and the store is
unchanged); the cloudinary variant's handler never consults the caller's
claims, so its outcome is identical for every authenticated caller. -/
theorem C1_amended_admin_gate_local_only :
    (∀ (user : Claims) (pid fid : String) (store : List LocalDisk.Paper),
       truthy user.isAdmin = false →
       LocalDisk.deleteFile user pid fid store
         = (.err 403 "Access denied.", store))
    ∧ (∀ (u u' : Claims) (pid fid : String) (destroyOk : String → Bool)
         (store : List Cloud.Paper),
       Cloud.deleteFile u pid fid destroyOk store
         = Cloud.deleteFile u' pid fid destroyOk store) := by
  constructor
  · intro user pid fid store h
    simp [LocalDisk.deleteFile, h]
  · intro u u' pid fid destroyOk store
    rfl

/-- Witness for C1 amended: moderator bob is refused by the local-disk
attachment delete with the store unchanged. -/
theorem C1_amended_witness :
    LocalDisk.deleteFile exMod "p1" "f1" [exLPaper]
      = (.err 403 "Access denied.", [exLPaper]) :=
  C1_amended_admin_gate_local_only.1 exMod "p1" "f1" [exLPaper] (by decide)

/-- C7: every successful PUT /api/papers/:id leaves the existing
attachment sequence as a prefix and appends the uploaded batch, mapped in
arrival order (`List.map` preserves order), in both variants; hence
uploading [a, b] and then [c] yields [a, b, c]. -/
theorem C7_append_order_preserving :
    (∀ (user : Claims) (pid : String) (note? : Option String)
       (ups : List Cloud.UploadedFile) (store : List Cloud.Paper) (now : Nat)
       (paper p' : Cloud.Paper) (store' : List Cloud.Paper),
       store.find? (fun p => p._id == pid) = some paper →
       Cloud.updatePaper user pid note? ups store now = (.ok p', store') →
       p'.files = paper.files ++ ups.map Cloud.toFile)
    ∧ (∀ (user : Claims) (pid : String) (note? : Option String)
         (ups : List LocalDisk.UploadedFile) (store : List LocalDisk.Paper)
         (now : Nat) (paper p' : LocalDisk.Paper)
         (store' : List LocalDisk.Paper),
       store.find? (fun p => p._id == pid) = some paper →
       LocalDisk.updatePaper user pid note? ups store now
         = (.ok p', store') →
       p'.files = paper.files ++ ups.map (LocalDisk.toFile now)) := by
  constructor
  · intro user pid note? ups store now paper p' store' hfind h
    exact (cloudUpdate_ok user pid note? ups store now paper p' store'
      hfind h).2.2.2.2.1
  · intro user pid note? ups store now paper p' store' hfind h
    exact (localUpdate_ok user pid note? ups store now paper p' store'
      hfind h).2.2.2.2.1

/-- Witness for C7: appending the upload exUp3 to exPaper (files
[exF1, exF2]) yields [exF1, exF2, toFile exUp3]. -/
theorem C7_witness :
    exUpdated.files = exPaper.files ++ [exUp3].map Cloud.toFile :=
  C7_append_order_preserving.1 exAdmin "p1" none [exUp3] [exPaper] 9 exPaper
    exUpdated [exUpdated] (by decide) (by decide)

/-- C10: a PUT /api/papers/:id whose note field is absent or the empty
string (both falsy in JS) leaves the note unchanged, while the uploads
are still appended and updatedAt is still set to the clock; and for every
successful update, regardless of the note field, moderatorId, title,
createdAt and the pre-existing attachment prefix are untouched.  Both
variants. -/
theorem C10_update_note_frame :
    (∀ (user : Claims) (pid : String) (note? : Option String)
       (ups : List Cloud.UploadedFile) (store : List Cloud.Paper) (now : Nat)
       (paper p' : Cloud.Paper) (store' : List Cloud.Paper),
       store.find? (fun p => p._id == pid) = some paper →
       Cloud.updatePaper user pid note? ups store now = (.ok p', store') →
       (p'.moderatorId = paper.moderatorId ∧ p'.title = paper.title
        ∧ p'.createdAt = paper.createdAt ∧ p'.updatedAt = now
        ∧ p'.files = paper.files ++ ups.map Cloud.toFile)
       ∧ ((note? = none ∨ note? = some "") → p'.note = paper.note))
    ∧ (∀ (user : Claims) (pid : String) (note? : Option String)
         (ups : List LocalDisk.UploadedFile) (store : List LocalDisk.Paper)
         (now : Nat) (paper p' : LocalDisk.Paper)
         (store' : List LocalDisk.Paper),
       store.find? (fun p => p._id == pid) = some paper →
       LocalDisk.updatePaper user pid note? ups store now
         = (.ok p', store') →
       (p'.moderatorId = paper.moderatorId ∧ p'.title = paper.title
        ∧ p'.createdAt = paper.createdAt ∧ p'.updatedAt = now
        ∧ p'.files = paper.files ++ ups.map (LocalDisk.toFile now))
       ∧ ((note? = none ∨ note? = some "") → p'.note = paper.note)) := by
  constructor
  · intro user pid note? ups store now paper p' store' hfind h
    obtain ⟨h1, h2, h3, h4, h5, h6, _⟩ :=
      cloudUpdate_ok user pid note? ups store now paper p' store' hfind h
    refine ⟨⟨h1, h2, h3, h4, h5⟩, ?_⟩
    rintro (rfl | rfl) <;> simpa [truthyStr] using h6
  · intro user pid note? ups store now paper p' store' hfind h
    obtain ⟨h1, h2, h3, h4, h5, h6, _⟩ :=
      localUpdate_ok user pid note? ups store now paper p' store' hfind h
    refine ⟨⟨h1, h2, h3, h4, h5⟩, ?_⟩
    rintro (rfl | rfl) <;> simpa [truthyStr] using h6

/-- Witness for C10: updating exPaper with note := "" and upload exUp3
keeps note "N", appends the file, refreshes updatedAt to 9 and leaves
moderatorId, title, createdAt and the old attachments in place. -/
theorem C10_witness :
    (exUpdated.moderatorId = exPaper.moderatorId
      ∧ exUpdated.title = exPaper.title
      ∧ exUpdated.createdAt = exPaper.createdAt
      ∧ exUpdated.updatedAt = 9
      ∧ exUpdated.files = exPaper.files ++ [exUp3].map Cloud.toFile)
    ∧ ((some "" = none ∨ some "" = some "") →
       exUpdated.note = exPaper.note) :=
  C10_update_note_frame.1 exAdmin "p1" (some "") [exUp3] [exPaper] 9 exPaper
    exUpdated [exUpdated] (by decide) (by decide)

/-- C3 counterexample: the attachment-removal mutation on exPaper
(updatedAt 5) succeeds but leaves updatedAt at 5.  The handler takes no
clock and never writes updatedAt, so under any strictly advanced clock
the stored value 5 is not strictly greater than the prior value 5 — the
claim fails for the attachment-removal mutation. -/
theorem C3_counterexample :
    (Cloud.deleteFile exAdmin "p1" "f1" (fun _ => true) [exPaper]).1
        = .ok "File deleted successfully"
    ∧ ((Cloud.deleteFile exAdmin "p1" "f1" (fun _ => true) [exPaper]).2.map
        Cloud.Paper.updatedAt) = [5]
    ∧ exPaper.updatedAt = 5 := by
  refine ⟨by decide, by decide, by decide⟩

/-- C3 amended: updatedAt is refreshed (set to the request clock) by
every successful PUT /api/papers/:id mutation — hence it does not
decrease when the clock has not gone backwards and strictly increases
under a strictly advancing clock — but a successful attachment removal
does not refresh updatedAt in either variant: the saved paper keeps the
prior value. -/
theorem C3_amended_updatedAt_put_only :
    (∀ (user : Claims) (pid : String) (note? : Option String)
       (ups : List Cloud.UploadedFile) (store : List Cloud.Paper) (now : Nat)
       (paper p' : Cloud.Paper) (store' : List Cloud.Paper),
       store.find? (fun p => p._id == pid) = some paper →
       Cloud.updatePaper user pid note? ups store now = (.ok p', store') →
       p'.updatedAt = now
       ∧ (paper.updatedAt ≤ now → paper.updatedAt ≤ p'.updatedAt)
       ∧ (paper.updatedAt < now → paper.updatedAt < p'.updatedAt))
    ∧ (∀ (user : Claims) (pid fid : String) (destroyOk : String → Bool)
         (store : List Cloud.Paper) (paper : Cloud.Paper)
         (file : Cloud.CFile),
       store.find? (fun p => p._id == pid) = some paper →
       paper.files.find? (fun f => f.fid == fid) = some file →
       destroyOk file.public_id = true →
       (Cloud.deleteFile user pid fid destroyOk store).2
         = store.map (fun q =>
             if q._id == pid then
               { paper with files := Cloud.removeFile paper.files fid }
             else q)
       ∧ ({ paper with files := Cloud.removeFile paper.files fid }
           : Cloud.Paper).updatedAt = paper.updatedAt)
    ∧ (∀ (user : Claims) (pid fid : String) (store : List LocalDisk.Paper)
         (paper : LocalDisk.Paper),
       truthy user.isAdmin = true →
       store.find? (fun p => p._id == pid) = some paper →
       paper.files.all (fun f => !(f.fid == fid)) = false →
       (LocalDisk.deleteFile user pid fid store).2
         = store.map (fun q =>
             if q._id == pid then
               { paper with files := LocalDisk.removeFile paper.files fid }
             else q)
       ∧ ({ paper with files := LocalDisk.removeFile paper.files fid }
           : LocalDisk.Paper).updatedAt = paper.updatedAt) := by
  refine ⟨?_, ?_, ?_⟩
  · intro user pid note? ups store now paper p' store' hfind h
    obtain ⟨_, _, _, h4, _⟩ :=
      cloudUpdate_ok user pid note? ups store now paper p' store' hfind h
    refine ⟨h4, ?_, ?_⟩ <;> rw [h4] <;> exact fun hle => hle
  · intro user pid fid destroyOk store paper file hfind hfile hdest
    rw [cloudDeleteFile_ok user pid fid destroyOk store paper file
      hfind hfile hdest]
    exact ⟨rfl, rfl⟩
  · intro user pid fid store paper hadm hfind hfile
    rw [localDeleteFile_ok user pid fid store paper hadm hfind hfile]
    exact ⟨rfl, rfl⟩

/-- Witness for C3 amended: a successful PUT on exPaper at clock 9 sets
updatedAt to 9, strictly above the prior 5. -/
theorem C3_amended_witness :
    exUpdated.updatedAt = 9
    ∧ (exPaper.updatedAt ≤ 9 → exPaper.updatedAt ≤ exUpdated.updatedAt)
    ∧ (exPaper.updatedAt < 9 → exPaper.updatedAt < exUpdated.updatedAt) :=
  C3_amended_updatedAt_put_only.1 exAdmin "p1" none [exUp3] [exPaper] 9
    exPaper exUpdated [exUpdated] (by decide) (by decide)

/-- C2 counterexample: with the Identity store empty — so no Identity
with id m1 exists — the create-paper endpoint still succeeds and stores a
Paper whose moderatorId is m1: the endpoint performs no existence
check. -/
theorem C2_counterexample :
    (([] : List User).find? (fun u => u._id == "m1") = none)
    ∧ Cloud.createPaper exAdmin
        { moderatorId := some "m1", title := some "T", note := some "N" }
        [] [] "p9" 7
        = (.ok exNewPaper, [exNewPaper])
    ∧ exNewPaper.moderatorId = "m1" := by
  refine ⟨by decide, by decide, by decide⟩

/-- C2 amended: the create-paper endpoint never consults the Identity
store; for an admin caller whose body passes schema validation it
succeeds and stores the Paper with the request's moderatorId verbatim,
even when no Identity with that id exists (in both variants). -/
theorem C2_amended_no_owner_existence_check :
    (∀ (users : List User) (user : Claims) (body : Cloud.CreateBody)
       (ups : List Cloud.UploadedFile) (store : List Cloud.Paper)
       (newId : String) (now : Nat),
       truthy user.isAdmin = true →
       users.all (fun u => !(u._id == body.moderatorId.getD "")) = true →
       body.moderatorId.getD "" ≠ "" →
       validTitle (body.title.getD "") = true →
       validNote (body.note.getD "") = true →
       ∃ p, Cloud.createPaper user body ups store newId now
             = (.ok p, store ++ [p])
           ∧ p.moderatorId = body.moderatorId.getD "")
    ∧ (∀ (users : List User) (user : Claims) (body : Cloud.CreateBody)
         (ups : List LocalDisk.UploadedFile) (store : List LocalDisk.Paper)
         (newId : String) (now : Nat),
       truthy user.isAdmin = true →
       users.all (fun u => !(u._id == body.moderatorId.getD "")) = true →
       body.moderatorId.getD "" ≠ "" →
       validTitle (body.title.getD "") = true →
       validNote (body.note.getD "") = true →
       ∃ p, LocalDisk.createPaper user body ups store newId now
             = (.ok p, store ++ [p])
           ∧ p.moderatorId = body.moderatorId.getD "") := by
  constructor
  · intro users user body ups store newId now hadm _ hm ht hn
    refine ⟨{ _id := newId, moderatorId := body.moderatorId.getD "",
              title := body.title.getD "", note := body.note.getD "",
              files := ups.map Cloud.toFile, createdAt := now,
              updatedAt := now }, ?_, rfl⟩
    simp [Cloud.createPaper, Cloud.validPaper, hadm, hm, ht, hn]
  · intro users user body ups store newId now hadm _ hm ht hn
    refine ⟨{ _id := newId, moderatorId := body.moderatorId.getD "",
              title := body.title.getD "", note := body.note.getD "",
              files := ups.map (LocalDisk.toFile now), createdAt := now,
              updatedAt := now }, ?_, rfl⟩
    simp [LocalDisk.createPaper, LocalDisk.validPaper, hadm, hm, ht, hn]

/-- Witness for C2 amended: against an Identity store holding only bob,
creating a paper for the unknown moderator m1 succeeds. -/
theorem C2_amended_witness :
    ∃ p, Cloud.createPaper exAdmin
          { moderatorId := some "m1", title := some "T", note := some "N" }
          [] [] "p9" 7
          = (.ok p, [] ++ [p])
        ∧ p.moderatorId
            = (({ moderatorId := some "m1", title := some "T",
                  note := some "N" } : Cloud.CreateBody).moderatorId.getD "") :=
  C2_amended_no_owner_existence_check.1 [⟨"bob", "bob", "hash"⟩] exAdmin
    { moderatorId := some "m1", title := some "T", note := some "N" }
    [] [] "p9" 7 (by decide) (by decide) (by decide) (by decide) (by decide)

/-- C8 counterexample: a create request with a 101-character title fails,
but not as a 400 response: the handler has no try/catch, so the
validation rejection escapes and no 400 is sent (no Paper is created —
the store stays empty). -/
theorem C8_counterexample :
    Cloud.createPaper exAdmin
        { moderatorId := some "m1", title := some longTitle, note := some "N" }
        [] [] "p9" 7
      = (.escaped "ValidationError", [])
    ∧ (Cloud.createPaper exAdmin
        { moderatorId := some "m1", title := some longTitle, note := some "N" }
        [] [] "p9" 7).1.isErr400 = false
    ∧ longTitle.length = 101 := by
  refine ⟨by decide, by decide, by decide⟩

/-- C8 amended: a create request whose title or note fails the schema's
required/maxlength validation (title ≤ 100, note ≤ 500) or whose
moderatorId is missing creates no Paper — the store is unchanged — but
the failure is an escaped save() rejection, not a 400 response (both
variants). -/
theorem C8_amended_validation_escapes_no_400 :
    (∀ (user : Claims) (body : Cloud.CreateBody)
       (ups : List Cloud.UploadedFile) (store : List Cloud.Paper)
       (newId : String) (now : Nat),
       truthy user.isAdmin = true →
       (validTitle (body.title.getD "") = false
        ∨ validNote (body.note.getD "") = false
        ∨ body.moderatorId.getD "" = "") →
       Cloud.createPaper user body ups store newId now
         = (.escaped "ValidationError", store))
    ∧ (∀ (user : Claims) (body : Cloud.CreateBody)
         (ups : List LocalDisk.UploadedFile) (store : List LocalDisk.Paper)
         (newId : String) (now : Nat),
       truthy user.isAdmin = true →
       (validTitle (body.title.getD "") = false
        ∨ validNote (body.note.getD "") = false
        ∨ body.moderatorId.getD "" = "") →
       LocalDisk.createPaper user body ups store newId now
         = (.escaped "ValidationError", store)) := by
  constructor
  · intro user body ups store newId now hadm hbad
    rcases hbad with h | h | h <;>
      simp [Cloud.createPaper, Cloud.validPaper, hadm, h]
  · intro user body ups store newId now hadm hbad
    rcases hbad with h | h | h <;>
      simp [LocalDisk.createPaper, LocalDisk.validPaper, hadm, h]

/-- Witness for C8 amended: a create request with an absent title escapes
as a validation rejection and creates nothing. -/
theorem C8_amended_witness :
    Cloud.createPaper exAdmin
        { moderatorId := some "m1", title := none, note := some "N" }
        [] [exPaper] "p9" 7
      = (.escaped "ValidationError", [exPaper]) :=
  C8_amended_validation_escapes_no_400.1 exAdmin
    { moderatorId := some "m1", title := none, note := some "N" }
    [] [exPaper] "p9" 7 (by decide) (Or.inl (by decide))

/-- C9: moderator-issued claims never carry isAdmin (so they can never
pass a requireAdmin gate — shown at the admin-gated moderator-creation
endpoint), and admin login issues isAdmin=true exactly for the literal
username admin with the exact configured password. -/
theorem C9_admin_capability_only_from_admin_login :
    (∀ (users : List User) (username password : String)
       (compare : String → String → Bool) (c : Claims),
       moderatorLogin users username password compare = .ok c →
       c.isAdmin = none)
    ∧ (∀ (username password adminPassword : String) (c : Claims),
       adminLogin username password adminPassword = .ok c →
       username = "admin" ∧ password = adminPassword
       ∧ c.isAdmin = some true)
    ∧ (∀ (c : Claims), c.isAdmin = none →
       ∀ (username password : String) (users : List User)
         (hash : String → String) (newId : String),
       createModerator c username password users hash newId
         = (.err 403 "Access denied.", users)) := by
  refine ⟨?_, ?_, ?_⟩
  · intro users username password compare c h
    unfold moderatorLogin at h
    rcases hf : users.find? (fun m => m.username == username) with _ | m
    · rw [hf] at h
      simp at h
    · rw [hf] at h
      simp only at h
      split at h
      · simp at h
      · injection h with h
        rw [← h]
  · intro username password adminPassword c h
    unfold adminLogin at h
    split at h
    · simp at h
    · next hc =>
      simp only [Bool.or_eq_true, decide_eq_true_eq, not_or, not_not] at hc
      injection h with h
      exact ⟨hc.1, hc.2, by rw [← h]⟩
  · intro c hc username password users hash newId
    simp [createModerator, truthy, hc]

/-- Witness for C9: bob's login token carries no isAdmin; the admin login
with the exact credentials carries isAdmin=true; bob cannot create a
moderator account. -/
theorem C9_witness :
    exMod.isAdmin = none
    ∧ ("admin" = "admin" ∧ "s3cret" = "s3cret"
       ∧ (Claims.mk "admin" none (some true)).isAdmin = some true)
    ∧ createModerator exMod "carol" "pw" [] (fun s => s) "u9"
        = (.err 403 "Access denied.", []) :=
  ⟨C9_admin_capability_only_from_admin_login.1 [⟨"bob", "bob", "h0"⟩] "bob"
     "pw" (fun _ _ => true) exMod (by decide),
   C9_admin_capability_only_from_admin_login.2.1 "admin" "s3cret" "s3cret"
     (Claims.mk "admin" none (some true)) (by decide),
   C9_admin_capability_only_from_admin_login.2.2 exMod (by decide) "carol"
     "pw" [] (fun s => s) "u9"⟩

end PaperSystem
